import Mathlib

/-!
Verification of the open-ports-scanner frontend scripts.

The repository holds three near-duplicate browser scripts
(`src/js/script.js`, `src/js/script1.js`, `src/js/scriptgemin.js`) that read
a scan configuration from a form, validate it, POST it to a backend and
render the stored result.  This file is a shallow embedding of the pure
logic of those scripts: the regex-based validators, the submit-handler
payload construction, the fetch-response handling and the results-page
summary rendering.

Regexes are embedded as executable character-list matchers.  Every regex in
the sources is anchored (`^...$`) and each repeated token class is disjoint
from its separator (digits never contain `.`, `,` or `-`; port tokens never
contain `,`), so backtracking cannot change the accepted language and the
matchers below recognise exactly the languages of the source regexes.
-/

namespace PortScanner

/-- The characters of the JavaScript regex class `\s` (also the characters
stripped by `String.prototype.trim`): ASCII whitespace plus the Unicode
white-space code points. -/
def jsSpaceList : List Char :=
  [' ', '\t', '\n', '\x0b', '\x0c', '\r',
   '\u00a0', '\u1680',
   '\u2000', '\u2001', '\u2002', '\u2003', '\u2004', '\u2005', '\u2006',
   '\u2007', '\u2008', '\u2009', '\u200a',
   '\u2028', '\u2029', '\u202f', '\u205f', '\u3000', '\ufeff']

/-- Whether a character matches the JavaScript regex class `\s`. -/
def isJsSpace (c : Char) : Bool := decide (c ∈ jsSpaceList)

/-- `s.replace(/\s+/g, '')` and `s.replace(/\s/g, '')`: delete every
whitespace character of `s`. -/
def jsStripWs (s : String) : String :=
  String.mk (s.data.filter (fun c => !isJsSpace c))

/-- The character list of a string with leading and trailing whitespace
removed. -/
def trimList (l : List Char) : List Char :=
  ((l.dropWhile isJsSpace).reverse.dropWhile isJsSpace).reverse

/-- `s.trim()`: drop leading and trailing whitespace. -/
def jsTrim (s : String) : String := String.mk (trimList s.data)

/-- The regex class `[a-zA-Z0-9.-]` of the hostname alternative of the
target regex in `script.js` and `script1.js`. -/
def isHostChar (c : Char) : Bool := c.isAlpha || c.isDigit || c == '.' || c == '-'

/-- The regex class `[0-9a-fA-F:]` inside the bracketed-IPv6 alternative. -/
def isHexColon (c : Char) : Bool :=
  c.isDigit || (decide ('a' ≤ c) && decide (c ≤ 'f')) ||
  (decide ('A' ≤ c) && decide (c ≤ 'F')) || c == ':'

/-- The union `[A-Za-z0-9.:\[\]-]` of every character class of the target
regex (the class named by spec §8 / claim C8). -/
def isC8Char (c : Char) : Bool :=
  c.isAlpha || c.isDigit || c == '.' || c == ':' || c == '[' || c == ']' || c == '-'

/-- The anchored hostname alternative `[a-zA-Z0-9.-]+`. -/
def hostAlt (l : List Char) : Bool := !l.isEmpty && l.all isHostChar

/-- The anchored bracketed-IPv6 alternative `\[[0-9a-fA-F:]+\]`. -/
def bracketAlt (l : List Char) : Bool :=
  match l with
  | '[' :: rest =>
      (rest.getLast? == some ']') && !rest.dropLast.isEmpty &&
      rest.dropLast.all isHexColon
  | _ => false

/-- One step of the dotted-quad alternative: consume `\d{1,3}\.`.  Since a
digit run cannot contain `.`, the anchored regex matches exactly when each
maximal digit run has length 1..3 and is followed by a dot. -/
def eatGroupDot (l : List Char) : Option (List Char) :=
  if (l.takeWhile Char.isDigit).isEmpty || decide (3 < (l.takeWhile Char.isDigit).length) then
    none
  else
    match l.dropWhile Char.isDigit with
    | '.' :: rest => some rest
    | _ => none

/-- The final `\d{1,3}` of the dotted-quad alternative, which must reach the
end of the string. -/
def lastGroup (l : List Char) : Bool :=
  (!(l.takeWhile Char.isDigit).isEmpty &&
    decide ((l.takeWhile Char.isDigit).length ≤ 3)) &&
  (l.dropWhile Char.isDigit).isEmpty

/-- `k` repetitions of `\d{1,3}\.` followed by a final `\d{1,3}`. -/
def ipv4Groups : Nat → List Char → Bool
  | 0, l => lastGroup l
  | k + 1, l =>
    match eatGroupDot l with
    | some rest => ipv4Groups k rest
    | none => false

/-- The anchored dotted-quad alternative `(?:\d{1,3}\.){3}\d{1,3}`. -/
def matchIpv4 (l : List Char) : Bool := ipv4Groups 3 l

/-- The full target regex
`/^(?:[a-zA-Z0-9.-]+|\[[0-9a-fA-F:]+\]|(?:\d{1,3}\.){3}\d{1,3})$/` shared by
`script.js` and `script1.js` (the order of alternatives differs between the
two files, which does not change the anchored alternation's language). -/
def targetRegexMatch (s : String) : Bool :=
  hostAlt s.data || bracketAlt s.data || matchIpv4 s.data

/-- Split a character list at every occurrence of a separator character
(the list analogue of `String.split`); the result is always non-empty. -/
def splitOnChar (sep : Char) : List Char → List (List Char)
  | [] => [[]]
  | c :: rest =>
    if c == sep then [] :: splitOnChar sep rest
    else
      match splitOnChar sep rest with
      | h :: t => (c :: h) :: t
      | [] => [[c]]

/-- One token `\d+(?:-\d+)?` of the custom port-list regex: a digit run, or
two digit runs joined by a hyphen.  A token never contains `,`, so the
anchored regex is equivalent to splitting on commas. -/
def isPortToken (t : List Char) : Bool :=
  match splitOnChar '-' t with
  | [a] => !a.isEmpty && a.all Char.isDigit
  | [a, b] => !a.isEmpty && a.all Char.isDigit &&
              !b.isEmpty && b.all Char.isDigit
  | _ => false

/-- The custom port-list regex `/^(\d+(?:-\d+)?)(,\d+(?:-\d+)?)*$/` of
`script.js`, applied after whitespace stripping (`script1.js` writes
`,\s*` between tokens, which is vacuous on a whitespace-free string). -/
def portListRegexMatch (s : String) : Bool :=
  (splitOnChar ',' s.data).all isPortToken

namespace Script

/-- `validateTarget` of `script.js` (lines 24-30).  The JS guard
`!target || !target.trim()` collapses to emptiness of the trimmed string. -/
def validateTarget (target : String) : Option String :=
  if jsTrim target = "" then some "Target IP or Host is required."
  else if targetRegexMatch target then none
  else some "Invalid format for IP/hostname."

/-- Comparison point for claim C10: `validateTarget` of `script.js` with the
dotted-quad IPv4 alternative deleted from its regex, built from the claim's
words. -/
def validateTargetNoIpv4 (target : String) : Option String :=
  if jsTrim target = "" then some "Target IP or Host is required."
  else if hostAlt target.data || bracketAlt target.data then none
  else some "Invalid format for IP/hostname."

/-- `validatePorts` of `script.js` (lines 32-39). -/
def validatePorts (ports : String) : Option String :=
  if jsTrim ports = "" then some "Custom port list is required."
  else if portListRegexMatch (jsStripWs ports) then none
  else some "Invalid port list. Use comma separated numbers or ranges (e.g., 21,80,443-445)."

end Script

namespace Script1

/-- `validateTarget` of `script1.js` (lines 67-72). -/
def validateTarget (target : String) : Option String :=
  if jsTrim target = "" then some "Target IP or Host is required."
  else if targetRegexMatch target then none
  else some "Invalid format. Please enter a valid IP or hostname."

/-- Comparison point for claim C10: `validateTarget` of `script1.js` with
the dotted-quad IPv4 alternative deleted from its regex, built from the
claim's words. -/
def validateTargetNoIpv4 (target : String) : Option String :=
  if jsTrim target = "" then some "Target IP or Host is required."
  else if hostAlt target.data || bracketAlt target.data then none
  else some "Invalid format. Please enter a valid IP or hostname."

/-- `validatePorts` of `script1.js` (lines 75-80).  Its emptiness guard is
`!ports` alone (no trim), so a whitespace-only list falls through to the
regex test. -/
def validatePorts (ports : String) : Option String :=
  if ports = "" then some "Custom port list is required."
  else if portListRegexMatch (jsStripWs ports) then none
  else some "Invalid port list. Use comma-separated ports or ranges (e.g., 21, 80, 443-445)."

end Script1

/-! ### JSON values, fetch outcomes and browser state -/

/-- A JSON number as the decimal the wire grammar writes it: the value
`mant / 10 ^ exp`.  JSON numbers are decimal literals, so this embeds every
body the backend can send; binary floating-point round-off is outside the
model. -/
structure JsNumber where
  mant : Int
  exp : Nat
deriving DecidableEq

/-- A JSON value, as produced by `response.json()` and consumed by
`JSON.stringify` / the results renderer. -/
inductive Json where
  | null
  | bool (b : Bool)
  | num (n : JsNumber)
  | str (s : String)
  | arr (elems : List Json)
  | obj (fields : List (String × Json))

/-- Field lookup in a JSON object field list (first binding wins, as after
`JSON.parse`). -/
def lookupField : List (String × Json) → String → Option Json
  | [], _ => none
  | (k, v) :: rest, key => if k = key then some v else lookupField rest key

/-- `j.k` property access: `some` the field of an object, `none` when the
value is no object or lacks the field (JS `undefined`). -/
def Json.get (j : Json) (key : String) : Option Json :=
  match j with
  | .obj fields => lookupField fields key
  | _ => none

/-- JavaScript truthiness of a JSON value (`NaN` does not arise: bodies come
from `JSON.parse`, which never produces it). -/
def Json.truthy : Json → Bool
  | .null => false
  | .bool b => b
  | .num n => !(n.mant == 0)
  | .str s => s != ""
  | .arr _ => true
  | .obj _ => true

/-- Decimal rendering of a JSON number, an approximation of JavaScript
number-to-string conversion (the fractional digits are not trimmed or
padded exactly as JS would; no claim inspects a rendered number). -/
def JsNumber.display (n : JsNumber) : String :=
  let d : Nat := 10 ^ n.exp
  let a : Nat := n.mant.natAbs
  (if n.mant < 0 then "-" else "") ++
  (if n.exp = 0 then toString a else toString (a / d) ++ "." ++ toString (a % d))

/-- JavaScript `String(v)` conversion of a scalar, used when a non-string
lands in a template literal or `textContent`. -/
def scalarDisplay : Json → String
  | .null => "null"
  | .bool b => if b then "true" else "false"
  | .num n => n.display
  | .str s => s
  | .arr _ => ""
  | .obj _ => "[object Object]"

/-- JavaScript `String(v)` conversion.  An array joins its elements with
commas; elements are rendered one level deep (JS recurses, but no claim
renders an array at all, let alone a nested one). -/
def jsDisplay : Json → String
  | .arr es => String.intercalate "," (es.map scalarDisplay)
  | v => scalarDisplay v

/-- A field read through the `||` default chains: a missing field behaves
like `null` (both are falsy, and no claim displays the raw `undefined`). -/
def jsField (d : Json) (key : String) : Json := (d.get key).getD Json.null

/-- JavaScript `a || b`. -/
def jsOr (a b : Json) : Json := if a.truthy then a else b

/-- `Number.prototype.toFixed(2)`: round the magnitude to the nearest
hundredth (half up) and print with exactly two decimals.  On the decimal
number model this is `floor((|mant| * 200 + 10 ^ exp) / (2 * 10 ^ exp))`
cents. -/
def toFixed2 (n : JsNumber) : String :=
  let d : Nat := 10 ^ n.exp
  let cents : Nat := (200 * n.mant.natAbs + d) / (2 * d)
  (if n.mant < 0 then "-" else "") ++ toString (cents / 100) ++ "." ++
  (if cents % 100 < 10 then "0" else "") ++ toString (cents % 100)

/-- `s.startsWith(pre)`. -/
def startsWithChars : List Char → List Char → Bool
  | [], _ => true
  | _ :: _, [] => false
  | p :: ps, c :: cs => p == c && startsWithChars ps cs

/-- `s.startsWith(pre)` on strings. -/
def jsStartsWith (s pre : String) : Bool := startsWithChars pre.data s.data

/-- `s.toUpperCase()` (ASCII; JS agrees with `Char.toUpper` on the ASCII
protocol and state labels the scripts uppercase). -/
def toUpperString (s : String) : String := String.mk (s.data.map Char.toUpper)

/-- `s.replace(/\D/g, '')`: keep exactly the decimal digits. -/
def digitsOf (s : String) : String := String.mk (s.data.filter Char.isDigit)

/-- What the browser `fetch` of one submission produced: an HTTP response
whose body either decodes as JSON (`some`) or does not (`none`), or a
transport-level failure (the promise rejected, no response at all). -/
inductive FetchOutcome where
  | response (status : Nat) (body : Option Json)
  | networkError

/-- `Response.ok` per the Fetch standard: status in 200..299. -/
def respOk (status : Nat) : Bool := decide (200 ≤ status) && decide (status < 300)

/-- Which browser storage object a value was written to. -/
inductive StorageScope where
  | session
  | localStore
deriving DecidableEq

/-- The submit control: its `disabled` flag and its label
(`innerHTML` / `textContent`). -/
structure ButtonState where
  disabled : Bool
  label : String
deriving DecidableEq

/-- Everything one `submitScan` call did: what it wrote to storage (scope,
key, value), where it navigated, what it alerted, and the submit control's
state when it returned. -/
structure SubmitResult where
  stored : Option (StorageScope × String × Json)
  navigate : Option String
  alertMsg : Option String
  button : ButtonState

/-- The raw form state a submit handler reads from the DOM: the target
field, the checked protocol radio (if any), the port-mode select value, the
custom-ports field and the terms checkbox. -/
structure FormState where
  target : String
  protocol : Option String
  portMode : String
  customPorts : String
  terms : Bool

/-! ### script.js: submit handler, orchestrator, renderer -/

namespace Script

/-- The busy state `submitScan` of `script.js` puts the button into while
the request is in flight (lines 46-50). -/
def busyButton : ButtonState := ⟨true, "Scanning..."⟩

/-- The `finally` block of `submitScan` (lines 77-82): re-enable and restore
`dataset.originalText || 'Start Scan'` (an empty saved label is falsy). -/
def restoreButton (b : ButtonState) : ButtonState :=
  ⟨false, if b.label = "" then "Start Scan" else b.label⟩

/-- The alert of the `catch` block of `submitScan` (line 76). -/
def networkAlert : String :=
  "Network Error: Could not connect to backend. Is app.py running on http://127.0.0.1:5000 ?"

/-- The generic message synthesized from the status code (line 62). -/
def statusMsg (status : Nat) : String :=
  "Scan failed with status " ++ toString status

/-- `json.error || statusMsg` of the backend-error branch (line 62). -/
def backendMsg (j : Json) (status : Nat) : String :=
  match j.get "error" with
  | some e => if e.truthy then jsDisplay e else statusMsg status
  | none => statusMsg status

/-- `submitScan` of `script.js` (lines 44-83) as a function of the fetch
outcome and the button's initial state.  `resp.json()` runs before the `ok`
check, so an undecodable body of any status throws into the `catch` block;
`json.error` on a JSON `null` body also throws there. -/
def submitScan (o : FetchOutcome) (b : ButtonState) : SubmitResult :=
  let btn := restoreButton b
  match o with
  | .networkError => ⟨none, none, some networkAlert, btn⟩
  | .response _ none => ⟨none, none, some networkAlert, btn⟩
  | .response status (some j) =>
    if respOk status then
      ⟨some (.session, "scanResults", j), some "results.html", none, btn⟩
    else
      match j with
      | .null => ⟨none, none, some networkAlert, btn⟩
      | _ => ⟨none, none, some ("Scan Error: " ++ backendMsg j status), btn⟩

/-- The submit handler of `script.js` (lines 183-233): validate, then build
the payload `{ target, protocol, port_mode, ports }`.  `none` when
validation blocks submission; the payload is the ordered field list of the
JSON body. -/
def handleSubmit (f : FormState) : Option (List (String × String)) :=
  let target := jsTrim f.target
  let protocol := f.protocol.getD "tcp"
  let ports := if f.portMode = "custom" then jsTrim f.customPorts else ""
  if (validateTarget target).isSome then none
  else if f.portMode = "custom" ∧ (validatePorts ports).isSome then none
  else if !f.terms then none
  else some [("target", target), ("protocol", protocol),
             ("port_mode", f.portMode),
             ("ports", if f.portMode = "custom" then ports else "")]

/-- The scan-duration cell of `loadResultsPage` (line 101):
`typeof d === 'number' ? d.toFixed(2) + 's' : (d || 'N/A')`. -/
def durationText (d : Json) : String :=
  match d.get "scan_duration" with
  | some (.num q) => toFixed2 q ++ "s"
  | some v => if v.truthy then jsDisplay v else "N/A"
  | none => "N/A"

/-- The protocol cell of `loadResultsPage` (line 102):
`(data.protocol || 'tcp').toUpperCase()`.  `none` models the TypeError a
truthy non-string protocol raises. -/
def protocolText (d : Json) : Option String :=
  match jsField d "protocol" with
  | .str s => if s != "" then some (toUpperString s) else some "TCP"
  | v => if v.truthy then none else some "TCP"

/-- The ports-scanned cell of `loadResultsPage` (lines 104-109):
`data.ports_list || data.port_mode || 'N/A'`, and a string starting with
`top` becomes `Top <digits or 100> ports`. -/
def portsText (d : Json) : String :=
  let v := jsOr (jsField d "ports_list") (jsOr (jsField d "port_mode") (.str "N/A"))
  match v with
  | .str s =>
    if jsStartsWith s "top" then
      "Top " ++ (if digitsOf s = "" then "100" else digitsOf s) ++ " ports"
    else s
  | other => jsDisplay other

end Script

/-! ### script1.js: submit handler and orchestrator -/

namespace Script1

/-- The busy state of `submitScan` in `script1.js` (lines 85-87). -/
def busyButton : ButtonState := ⟨true, "Scanning... Please wait (up to 120s)"⟩

/-- The `finally` block (lines 118-121): re-enable and set the fixed ready
label. -/
def restoreButton : ButtonState := ⟨false, "Start Scan"⟩

/-- The alert of the `catch` block (line 115). -/
def networkAlert : String :=
  "Network Error: Could not connect to the Python backend. Ensure 'app.py' is running on http://127.0.0.1:5000."

/-- The fallback backend-error message (line 109). -/
def unknownErr : String := "An unknown error occurred during scanning."

/-- `result.error || unknownErr` (line 109). -/
def backendMsg (j : Json) : String :=
  match j.get "error" with
  | some e => if e.truthy then jsDisplay e else unknownErr
  | none => unknownErr

/-- `submitScan` of `script1.js` (lines 83-123).  Same shape as `script.js`
but the result is saved to `localStorage` and the restored label is the
constant `'Start Scan'`. -/
def submitScan (o : FetchOutcome) (_b : ButtonState) : SubmitResult :=
  match o with
  | .networkError => ⟨none, none, some networkAlert, restoreButton⟩
  | .response _ none => ⟨none, none, some networkAlert, restoreButton⟩
  | .response status (some j) =>
    if respOk status then
      ⟨some (.localStore, "scanResults", j), some "results.html", none, restoreButton⟩
    else
      match j with
      | .null => ⟨none, none, some networkAlert, restoreButton⟩
      | _ => ⟨none, none, some ("Scan Error: " ++ backendMsg j), restoreButton⟩

/-- The submit handler of `script1.js` (lines 128-181): all three checks
run (accumulating `isValid`), `portsToScan` is the custom field for custom
mode and the raw mode token otherwise, and the protocol radio is read only
after validation (no checked radio throws, so nothing is submitted). -/
def handleSubmit (f : FormState) : Option (List (String × String)) :=
  let portsToScan := if f.portMode = "custom" then f.customPorts else f.portMode
  let valid := (validateTarget f.target).isNone &&
               (if f.portMode = "custom" then (validatePorts f.customPorts).isNone else true) &&
               f.terms
  if valid then
    match f.protocol with
    | some p => some [("target", f.target), ("protocol", p),
                      ("port_mode", f.portMode), ("ports", portsToScan)]
    | none => none
  else none

end Script1

/-! ### scriptgemin.js: validation, submission, renderer -/

namespace Gemin

/-- The custom-ports check of `validateForm` (lines 113-118): the loose
class regex `/^[\d\s,-]+$/` on the trimmed field. -/
def portsPattern (s : String) : Bool :=
  !s.data.isEmpty && s.data.all (fun c => c.isDigit || isJsSpace c || c == ',' || c == '-')

/-- `validateForm` of `scriptgemin.js` (lines 92-130): target non-empty (no
format check), custom ports non-empty and matching the class regex, terms
checked. -/
def validateForm (f : FormState) : Bool :=
  (jsTrim f.target != "") &&
  (if f.portMode = "custom" then
     jsTrim f.customPorts != "" && portsPattern (jsTrim f.customPorts)
   else true) &&
  f.terms

/-- The payload-building half of `handleScanSubmission` (lines 135-165):
on valid input, the body is `{ target_ip, protocol, ports_list }`.  With no
protocol radio checked the `.value` read throws, so nothing is submitted. -/
def handleScanSubmission (f : FormState) : Option (List (String × String)) :=
  if validateForm f then
    match f.protocol with
    | some p =>
      some [("target_ip", jsTrim f.target), ("protocol", p),
            ("ports_list", if f.portMode = "custom" then jsTrim f.customPorts else f.portMode)]
    | none => none
  else none

/-- The busy label `handleScanSubmission` sets (line 158). -/
def busyButton : ButtonState :=
  ⟨true, "<i data-lucide=\"loader\" class=\"animate-spin mr-2\"></i> Scanning..."⟩

/-- The `finally` block (lines 197-200): re-enable, restore the saved
original label. -/
def restoreButton (b : ButtonState) : ButtonState := ⟨false, b.label⟩

/-- The alert of the `catch` block (line 194). -/
def networkAlert : String :=
  "Network Error: Could not connect to the Python backend. Ensure 'app.py' is running on http://127.0.0.1:5000."

/-- The fetch half of `handleScanSubmission` (lines 169-201): a non-ok
status throws (so every backend error is reported with the network alert),
and an ok body with a truthy `error` field alerts instead of storing. -/
def submitScan (o : FetchOutcome) (b : ButtonState) : SubmitResult :=
  let btn := restoreButton b
  match o with
  | .networkError => ⟨none, none, some networkAlert, btn⟩
  | .response status body =>
    if respOk status then
      match body with
      | none => ⟨none, none, some networkAlert, btn⟩
      | some .null => ⟨none, none, some networkAlert, btn⟩
      | some j =>
        match j.get "error" with
        | some e =>
          if e.truthy then ⟨none, none, some ("Scan Error: " ++ jsDisplay e), btn⟩
          else ⟨some (.session, "scanResults", j), some "results.html", none, btn⟩
        | none => ⟨some (.session, "scanResults", j), some "results.html", none, btn⟩
    else ⟨none, none, some networkAlert, btn⟩

/-- The scan-duration cell of `loadResultsPage` in `scriptgemin.js`
(line 224): `resultsData.scan_duration.toFixed(2)` with no numeric guard —
`none` models the TypeError on a missing or non-numeric duration. -/
def durationText (d : Json) : Option String :=
  match d.get "scan_duration" with
  | some (.num q) => some (toFixed2 q ++ "s")
  | _ => none

/-- The protocol cell (line 225): `resultsData.protocol.toUpperCase()`,
throwing on a missing or non-string protocol. -/
def protocolText (d : Json) : Option String :=
  match d.get "protocol" with
  | some (.str s) => some (toUpperString s)
  | _ => none

/-- The ports-scanned cell (lines 227-231): `ports_list` must be a string;
a `top_<n>` token becomes `Top <n> Ports`. -/
def portsText (d : Json) : Option String :=
  match d.get "ports_list" with
  | some (.str s) =>
    if jsStartsWith s "top_" then
      some ("Top " ++ String.mk ((splitOnChar '_' s.data).getD 1 []) ++ " Ports")
    else some s
  | _ => none

end Gemin

/-! ### Helper lemmas -/

theorem mk_eq_empty {l : List Char} : String.mk l = "" ↔ l = [] := by
  constructor
  · intro h
    exact congrArg String.data h
  · intro h
    subst h
    rfl

theorem trimList_eq_nil_iff {l : List Char} :
    trimList l = [] ↔ l.all isJsSpace = true := by
  unfold trimList
  rw [List.reverse_eq_nil_iff, List.dropWhile_eq_nil_iff, List.all_eq_true]
  constructor
  · intro h x hx
    have hsplit := List.takeWhile_append_dropWhile (p := isJsSpace) (l := l)
    rw [← hsplit] at hx
    rcases List.mem_append.mp hx with h1 | h2
    · exact List.mem_takeWhile_imp h1
    · exact h x (List.mem_reverse.mpr h2)
  · intro h x hx
    exact h x ((List.dropWhile_sublist isJsSpace).subset (List.mem_reverse.mp hx))

theorem jsTrim_eq_empty_iff (s : String) :
    jsTrim s = "" ↔ s.data.all isJsSpace = true := by
  rw [jsTrim, mk_eq_empty, trimList_eq_nil_iff]

theorem jsStripWs_eq_empty_iff (s : String) :
    jsStripWs s = "" ↔ s.data.all isJsSpace = true := by
  rw [jsStripWs, mk_eq_empty, List.filter_eq_nil_iff, List.all_eq_true]
  constructor
  · intro h x hx
    have := h x hx
    simpa using this
  · intro h x hx
    simp [h x hx]

theorem hostChar_not_space {c : Char} (h : isHostChar c = true) : isJsSpace c = false := by
  by_contra hs
  rw [Bool.not_eq_false, isJsSpace, decide_eq_true_iff] at hs
  fin_cases hs <;> exact absurd h (by decide)

theorem hostChar_c8 {c : Char} (h : isHostChar c = true) : isC8Char c = true := by
  rw [isHostChar] at h
  rw [isC8Char]
  rcases Bool.or_eq_true_iff.mp h with h1 | h2
  · rcases Bool.or_eq_true_iff.mp h1 with h3 | h4
    · rcases Bool.or_eq_true_iff.mp h3 with h5 | h6
      · simp [h5]
      · simp [h6]
    · simp [h4]
  · simp [h2]

theorem eatGroupDot_mem {l t : List Char} (h : eatGroupDot l = some t) :
    ∀ c ∈ l, c.isDigit = true ∨ c = '.' ∨ c ∈ t := by
  rw [eatGroupDot] at h
  split at h
  · exact absurd h (by simp)
  · split at h
    case _ rest heq =>
      injection h with h
      subst h
      intro c hc
      have hsplit := List.takeWhile_append_dropWhile (p := Char.isDigit) (l := l)
      rw [← hsplit] at hc
      rcases List.mem_append.mp hc with h1 | h2
      · exact Or.inl (List.mem_takeWhile_imp h1)
      · rw [heq] at h2
        rcases List.mem_cons.mp h2 with h3 | h3
        · exact Or.inr (Or.inl h3)
        · exact Or.inr (Or.inr h3)
    case _ => exact absurd h (by simp)

theorem lastGroup_digits {l : List Char} (h : lastGroup l = true) :
    ∀ c ∈ l, c.isDigit = true := by
  rw [lastGroup, Bool.and_eq_true, Bool.and_eq_true] at h
  obtain ⟨-, h3⟩ := h
  intro c hc
  have hsplit := List.takeWhile_append_dropWhile (p := Char.isDigit) (l := l)
  rw [List.isEmpty_iff] at h3
  rw [h3, List.append_nil] at hsplit
  rw [← hsplit] at hc
  exact List.mem_takeWhile_imp hc

theorem ipv4Groups_digit_dot :
    ∀ k l, ipv4Groups k l = true → ∀ c ∈ l, c.isDigit = true ∨ c = '.'
  | 0, l, h => fun c hc => Or.inl (lastGroup_digits h c hc)
  | k + 1, l, h => by
    cases h1 : eatGroupDot l with
    | none => rw [ipv4Groups, h1] at h; cases h
    | some rest =>
      intro c hc
      have hrec := ipv4Groups_digit_dot k rest (by simpa [ipv4Groups, h1] using h)
      rcases eatGroupDot_mem h1 c hc with hd | hdot | hm
      · exact Or.inl hd
      · exact Or.inr hdot
      · exact hrec c hm

theorem matchIpv4_digit_dot {l : List Char} (h : matchIpv4 l = true) :
    ∀ c ∈ l, c.isDigit = true ∨ c = '.' :=
  ipv4Groups_digit_dot 3 l h

theorem matchIpv4_imp_hostAlt {l : List Char} (h : matchIpv4 l = true) :
    hostAlt l = true := by
  cases l with
  | nil => exact absurd h (by decide)
  | cons a as =>
    rw [hostAlt, Bool.and_eq_true]
    refine ⟨by simp, ?_⟩
    rw [List.all_eq_true]
    intro c hc
    rcases matchIpv4_digit_dot h c hc with hd | hdot
    · simp [isHostChar, hd]
    · simp [isHostChar, hdot]

theorem targetRegexMatch_eq_noIpv4 (s : String) :
    targetRegexMatch s = (hostAlt s.data || bracketAlt s.data) := by
  rw [targetRegexMatch]
  cases hi : matchIpv4 s.data with
  | false => simp
  | true => simp [matchIpv4_imp_hostAlt hi]

theorem Script.script_validatePorts_none_iff (s : String) :
    Script.validatePorts s = none ↔ portListRegexMatch (jsStripWs s) = true := by
  rw [Script.validatePorts]
  split
  case isTrue h =>
    constructor
    · intro hh
      exact absurd hh (by simp)
    · intro hm
      exfalso
      have he : jsStripWs s = "" :=
        (jsStripWs_eq_empty_iff s).mpr ((jsTrim_eq_empty_iff s).mp h)
      rw [he] at hm
      exact absurd hm (by decide)
  case isFalse h =>
    split
    case isTrue h2 => simp [h2]
    case isFalse h2 => simp [h2]

theorem Script1.script1_validatePorts_none_iff (s : String) :
    Script1.validatePorts s = none ↔ portListRegexMatch (jsStripWs s) = true := by
  rw [Script1.validatePorts]
  split
  case isTrue h =>
    subst h
    constructor
    · intro hh
      exact absurd hh (by simp)
    · intro hm
      exact absurd hm (by decide)
  case isFalse h =>
    split
    case isTrue h2 => simp [h2]
    case isFalse h2 => simp [h2]

theorem Script.script_validatePorts_none_ne_empty {s : String}
    (h : Script.validatePorts s = none) : s ≠ "" := by
  intro he
  subst he
  exact absurd h (by decide)

theorem Script1.script1_validatePorts_none_ne_empty {s : String}
    (h : Script1.validatePorts s = none) : s ≠ "" := by
  intro he
  subst he
  exact absurd h (by decide)

theorem Script.script_handleSubmit_some {f : FormState} {p : List (String × String)}
    (h : Script.handleSubmit f = some p) :
    p = [("target", jsTrim f.target), ("protocol", f.protocol.getD "tcp"),
         ("port_mode", f.portMode),
         ("ports", if f.portMode = "custom" then jsTrim f.customPorts else "")] ∧
    (f.portMode = "custom" → Script.validatePorts (jsTrim f.customPorts) = none) := by
  simp only [Script.handleSubmit] at h
  by_cases ht : (Script.validateTarget (jsTrim f.target)).isSome = true
  · rw [if_pos ht] at h
    exact absurd h (by simp)
  · rw [if_neg ht] at h
    by_cases hv : f.portMode = "custom" ∧
        (Script.validatePorts (if f.portMode = "custom" then jsTrim f.customPorts else "")).isSome = true
    · rw [if_pos hv] at h
      exact absurd h (by simp)
    · rw [if_neg hv] at h
      by_cases hb : (!f.terms) = true
      · rw [if_pos hb] at h
        exact absurd h (by simp)
      · rw [if_neg hb] at h
        refine ⟨?_, ?_⟩
        · rw [(Option.some.inj h).symm]
          by_cases hm2 : f.portMode = "custom" <;> simp [hm2]
        intro hm
        have h2 := not_and.mp hv hm
        rw [if_pos hm] at h2
        cases ho : Script.validatePorts (jsTrim f.customPorts) with
        | none => rfl
        | some m =>
          rw [ho] at h2
          exact absurd rfl h2

theorem Script1.script1_handleSubmit_some {f : FormState} {p : List (String × String)}
    (h : Script1.handleSubmit f = some p) :
    (∃ pv, f.protocol = some pv ∧
       p = [("target", f.target), ("protocol", pv), ("port_mode", f.portMode),
            ("ports", if f.portMode = "custom" then f.customPorts else f.portMode)]) ∧
    (f.portMode = "custom" → Script1.validatePorts f.customPorts = none) := by
  simp only [Script1.handleSubmit] at h
  by_cases hvalid : ((Script1.validateTarget f.target).isNone &&
      (if f.portMode = "custom" then (Script1.validatePorts f.customPorts).isNone else true) &&
      f.terms) = true
  · rw [if_pos hvalid] at h
    cases hpr : f.protocol with
    | none =>
      rw [hpr] at h
      exact absurd h (by simp)
    | some pv =>
      rw [hpr] at h
      refine ⟨⟨pv, rfl, (Option.some.inj h).symm⟩, ?_⟩
      intro hm
      rw [Bool.and_eq_true, Bool.and_eq_true] at hvalid
      obtain ⟨⟨-, hports⟩, -⟩ := hvalid
      rw [if_pos hm] at hports
      rw [Option.isNone_iff_eq_none] at hports
      exact hports
  · rw [if_neg hvalid] at h
    exact absurd h (by simp)

theorem Gemin.gemin_handleScanSubmission_some {f : FormState} {p : List (String × String)}
    (h : Gemin.handleScanSubmission f = some p) :
    ∃ pv, f.protocol = some pv ∧
      p = [("target_ip", jsTrim f.target), ("protocol", pv),
           ("ports_list", if f.portMode = "custom" then jsTrim f.customPorts else f.portMode)] := by
  simp only [Gemin.handleScanSubmission] at h
  by_cases hv : Gemin.validateForm f = true
  · rw [if_pos hv] at h
    cases hpr : f.protocol with
    | none =>
      rw [hpr] at h
      exact absurd h (by simp)
    | some pv =>
      rw [hpr] at h
      exact ⟨pv, rfl, (Option.some.inj h).symm⟩
  · rw [if_neg hv] at h
    exact absurd h (by simp)

theorem respOk_eq_false {st : Nat} (h : ¬ respOk st = true) : respOk st = false := by
  revert h
  cases respOk st <;> simp

theorem Script.script_submitScan_button (o : FetchOutcome) (b : ButtonState) :
    (Script.submitScan o b).button = Script.restoreButton b := by
  rcases o with ⟨st, body⟩ | _
  · rcases body with _ | j
    · rfl
    · by_cases hok : respOk st = true
      · simp [Script.submitScan, hok]
      · cases j <;> simp [Script.submitScan, respOk_eq_false hok]
  · rfl

theorem Script1.script1_submitScan_button (o : FetchOutcome) (b : ButtonState) :
    (Script1.submitScan o b).button = Script1.restoreButton := by
  rcases o with ⟨st, body⟩ | _
  · rcases body with _ | j
    · rfl
    · by_cases hok : respOk st = true
      · simp [Script1.submitScan, hok]
      · cases j <;> simp [Script1.submitScan, respOk_eq_false hok]
  · rfl

theorem Gemin.gemin_submitScan_button (o : FetchOutcome) (b : ButtonState) :
    (Gemin.submitScan o b).button = Gemin.restoreButton b := by
  rcases o with ⟨st, body⟩ | _
  · by_cases hok : respOk st = true
    · rcases body with _ | j
      · simp [Gemin.submitScan, hok]
      · cases j with
        | null => simp [Gemin.submitScan, hok]
        | bool x => simp [Gemin.submitScan, hok, Json.get]
        | num x => simp [Gemin.submitScan, hok, Json.get]
        | str x => simp [Gemin.submitScan, hok, Json.get]
        | arr x => simp [Gemin.submitScan, hok, Json.get]
        | obj fs =>
          cases hx : lookupField fs "error" with
          | none => simp [Gemin.submitScan, hok, Json.get, hx]
          | some e =>
            cases ht : e.truthy <;> simp [Gemin.submitScan, hok, Json.get, hx, ht]
    · simp [Gemin.submitScan, respOk_eq_false hok]
  · rfl

/-! ### Claim theorems -/

/-- C5: `validatePorts` accepts `21,80,443-445` and `21, 80 , 443-445`,
rejects `21,,80` with the malformed-port-list error and the empty string
with the empty-ports error; and in general (in both `script.js` and
`script1.js`) it accepts exactly the strings whose whitespace-stripped form
is a comma-separated sequence of tokens, each one digit run or two digit
runs joined by a hyphen. -/
theorem C5_validatePorts_grammar :
    (Script.validatePorts "21,80,443-445" = none ∧
     Script.validatePorts "21, 80 , 443-445" = none ∧
     Script.validatePorts "21,,80" =
       some "Invalid port list. Use comma separated numbers or ranges (e.g., 21,80,443-445)." ∧
     Script.validatePorts "" = some "Custom port list is required.") ∧
    (Script1.validatePorts "21,80,443-445" = none ∧
     Script1.validatePorts "21, 80 , 443-445" = none ∧
     Script1.validatePorts "21,,80" =
       some "Invalid port list. Use comma-separated ports or ranges (e.g., 21, 80, 443-445)." ∧
     Script1.validatePorts "" = some "Custom port list is required.") ∧
    (∀ s : String, Script.validatePorts s = none ↔ portListRegexMatch (jsStripWs s) = true) ∧
    (∀ s : String, Script1.validatePorts s = none ↔ portListRegexMatch (jsStripWs s) = true) :=
  ⟨⟨by decide, by decide, by decide, by decide⟩,
   ⟨by decide, by decide, by decide, by decide⟩,
   Script.script_validatePorts_none_iff, Script1.script1_validatePorts_none_iff⟩

/-- C7 counterexample: the empty string consists only of letters, digits,
`.` and `-` (vacuously), yet `validateTarget` rejects it with the
empty-target error rather than returning no error. -/
theorem C7_cex_empty_string :
    "".data.all isHostChar = true ∧
    Script.validateTarget "" = some "Target IP or Host is required." ∧
    Script1.validateTarget "" = some "Target IP or Host is required." :=
  ⟨by decide, by decide, by decide⟩

/-- C7 (amended): every NON-EMPTY string consisting only of letters,
digits, `.` and `-` passes `validateTarget` with no error, in both
`script.js` and `script1.js`. -/
theorem C7_host_strings_accepted (s : String) (h1 : s ≠ "")
    (h2 : s.data.all isHostChar = true) :
    Script.validateTarget s = none ∧ Script1.validateTarget s = none := by
  obtain ⟨l⟩ := s
  have hl : l ≠ [] := fun h => h1 (mk_eq_empty.mpr h)
  have htrim : ¬ jsTrim (String.mk l) = "" := by
    rw [jsTrim_eq_empty_iff]
    intro hws
    obtain ⟨c, hc⟩ := List.exists_mem_of_ne_nil l hl
    have hh := (List.all_eq_true.mp h2) c hc
    have hw := (List.all_eq_true.mp hws) c hc
    rw [hostChar_not_space hh] at hw
    cases hw
  have hm : targetRegexMatch (String.mk l) = true := by
    rw [targetRegexMatch]
    have hh : hostAlt (String.mk l).data = true := by
      rw [hostAlt, Bool.and_eq_true]
      cases l with
      | nil => exact absurd rfl hl
      | cons a as => exact ⟨rfl, h2⟩
    simp [hh]
  constructor
  · rw [Script.validateTarget, if_neg htrim, if_pos hm]
  · rw [Script1.validateTarget, if_neg htrim, if_pos hm]

/-- C7 witness: a concrete hostname accepted by both validators. -/
theorem C7_host_strings_accepted_witness :
    Script.validateTarget "scanme.nmap.org" = none ∧
    Script1.validateTarget "scanme.nmap.org" = none :=
  C7_host_strings_accepted "scanme.nmap.org" (by decide) (by decide)

/-- C8 counterexample: the one-space string contains a character outside
`[A-Za-z0-9.:\[\]-]` and does not match the bracketed-IPv6 shape, yet
`validateTarget` rejects it with the empty-target error, not the
invalid-format error the claim requires. -/
theorem C8_cex_whitespace_target :
    (' ' ∈ " ".data ∧ isC8Char ' ' = false) ∧
    bracketAlt " ".data = false ∧
    Script.validateTarget " " = some "Target IP or Host is required." ∧
    ¬ Script.validateTarget " " = some "Invalid format for IP/hostname." :=
  ⟨⟨by decide, by decide⟩, by decide, by decide, by decide⟩

/-- C8 (amended): every string whose trimmed form is non-empty, containing
a character outside `[A-Za-z0-9.:\[\]-]` and not matching the
bracketed-IPv6 shape, fails `validateTarget` with the invalid-format error
in both `script.js` and `script1.js`. -/
theorem C8_invalid_chars_rejected (s : String) (h1 : ¬ jsTrim s = "")
    (h2 : ∃ c ∈ s.data, isC8Char c = false)
    (h3 : bracketAlt s.data = false) :
    Script.validateTarget s = some "Invalid format for IP/hostname." ∧
    Script1.validateTarget s = some "Invalid format. Please enter a valid IP or hostname." := by
  obtain ⟨c, hc, hcbad⟩ := h2
  have hhost : hostAlt s.data = false := by
    rw [hostAlt]
    cases hall : s.data.all isHostChar with
    | true =>
      have := (List.all_eq_true.mp hall) c hc
      rw [hostChar_c8 this] at hcbad
      cases hcbad
    | false => simp
  have hip : matchIpv4 s.data = false := by
    cases hm : matchIpv4 s.data with
    | false => rfl
    | true =>
      rcases matchIpv4_digit_dot hm c hc with hd | hdot
      · have hcc : isC8Char c = true := by simp [isC8Char, hd]
        rw [hcc] at hcbad
        cases hcbad
      · subst hdot
        exact absurd hcbad (by decide)
  have hm : targetRegexMatch s = false := by
    rw [targetRegexMatch, hhost, h3, hip]
    rfl
  constructor
  · simp [Script.validateTarget, h1, hm]
  · simp [Script1.validateTarget, h1, hm]

/-- C8 witness: a concrete string with an embedded space is rejected with
the invalid-format error by both validators. -/
theorem C8_invalid_chars_rejected_witness :
    Script.validateTarget "foo bar" = some "Invalid format for IP/hostname." ∧
    Script1.validateTarget "foo bar" = some "Invalid format. Please enter a valid IP or hostname." :=
  C8_invalid_chars_rejected "foo bar" (by decide) (by decide) (by decide)

/-- C10: deleting the dotted-quad IPv4 alternative from the target regex
changes nothing — `validateTarget` equals the deleted-alternative validator
on every input in both scripts, because the hostname alternative accepts
every non-empty string of letters, digits, dots and hyphens — and the
claim's sample strings are all accepted. -/
theorem C10_ipv4_alternative_redundant :
    (∀ s : String, Script.validateTarget s = Script.validateTargetNoIpv4 s) ∧
    (∀ s : String, Script1.validateTarget s = Script1.validateTargetNoIpv4 s) ∧
    Script.validateTarget "999.999.999.999" = none ∧
    Script.validateTarget "1.2.3.4.5" = none ∧
    Script.validateTarget "..." = none ∧
    Script.validateTarget "---" = none := by
  refine ⟨?_, ?_, by decide, by decide, by decide, by decide⟩
  · intro s
    rw [Script.validateTarget, Script.validateTargetNoIpv4, targetRegexMatch_eq_noIpv4]
  · intro s
    rw [Script1.validateTarget, Script1.validateTargetNoIpv4, targetRegexMatch_eq_noIpv4]

/-- C1 counterexample: from a valid `scriptgemin.js` form state the
submitted body's fields are `target_ip`, `protocol`, `ports_list` — not
the four fields `target`, `protocol`, `port_mode`, `ports` the claim
requires of every submission. -/
theorem C1_cex_gemin_payload :
    (Gemin.handleScanSubmission ⟨"scanme.org", some "tcp", "top_100", "", true⟩).map
        (fun p => p.map Prod.fst) = some ["target_ip", "protocol", "ports_list"] ∧
    (["target_ip", "protocol", "ports_list"] : List String) ≠
      ["target", "protocol", "port_mode", "ports"] :=
  ⟨by decide, by decide⟩

/-- C1 (amended): every body submitted by `script.js` or `script1.js` has
exactly the fields `target`, `protocol`, `port_mode`, `ports` in that
order, while every body submitted by `scriptgemin.js` has exactly the
fields `target_ip`, `protocol`, `ports_list`. -/
theorem C1_payload_fields :
    (∀ f p, Script.handleSubmit f = some p →
       p.map Prod.fst = ["target", "protocol", "port_mode", "ports"]) ∧
    (∀ f p, Script1.handleSubmit f = some p →
       p.map Prod.fst = ["target", "protocol", "port_mode", "ports"]) ∧
    (∀ f p, Gemin.handleScanSubmission f = some p →
       p.map Prod.fst = ["target_ip", "protocol", "ports_list"]) := by
  refine ⟨?_, ?_, ?_⟩
  · intro f p h
    obtain ⟨hp, -⟩ := Script.script_handleSubmit_some h
    subst hp
    rfl
  · intro f p h
    obtain ⟨⟨pv, -, hp⟩, -⟩ := Script1.script1_handleSubmit_some h
    subst hp
    rfl
  · intro f p h
    obtain ⟨pv, -, hp⟩ := Gemin.gemin_handleScanSubmission_some h
    subst hp
    rfl

/-- C2 counterexample: in `script1.js` a non-custom submission carries the
port-mode token — here `top100` — in its `ports` field, not the empty
string, even with a leftover value in the custom field. -/
theorem C2_cex_script1_ports :
    Script1.handleSubmit ⟨"scanme.org", some "tcp", "top100", "junk", true⟩ =
      some [("target", "scanme.org"), ("protocol", "tcp"),
            ("port_mode", "top100"), ("ports", "top100")] ∧
    ("top100" : String) ≠ "" :=
  ⟨by decide, by decide⟩

/-- C2 (amended): every payload `script.js` submits has `ports = ""` when
the port mode is not custom — regardless of any leftover custom-field
value — and, when the mode is custom, a non-empty `ports` whose
whitespace-stripped form matches the port-list grammar.  `script1.js`
instead submits the port-mode token itself as `ports` for non-custom
modes, and the raw custom field (non-empty, grammar-matching after
whitespace stripping) for custom mode. -/
theorem C2_ports_invariant :
    (∀ f p, Script.handleSubmit f = some p → ¬ f.portMode = "custom" →
       ∃ t pr, p = [("target", t), ("protocol", pr),
                    ("port_mode", f.portMode), ("ports", "")]) ∧
    (∀ f p, Script.handleSubmit f = some p → f.portMode = "custom" →
       ∃ t pr v, p = [("target", t), ("protocol", pr),
                      ("port_mode", f.portMode), ("ports", v)] ∧
         ¬ v = "" ∧ portListRegexMatch (jsStripWs v) = true) ∧
    (∀ f p, Script1.handleSubmit f = some p → ¬ f.portMode = "custom" →
       ∃ t pr, p = [("target", t), ("protocol", pr),
                    ("port_mode", f.portMode), ("ports", f.portMode)]) ∧
    (∀ f p, Script1.handleSubmit f = some p → f.portMode = "custom" →
       ∃ t pr, p = [("target", t), ("protocol", pr),
                    ("port_mode", f.portMode), ("ports", f.customPorts)] ∧
         ¬ f.customPorts = "" ∧ portListRegexMatch (jsStripWs f.customPorts) = true) := by
  refine ⟨?_, ?_, ?_, ?_⟩
  · intro f p h hm
    obtain ⟨hp, -⟩ := Script.script_handleSubmit_some h
    subst hp
    exact ⟨jsTrim f.target, f.protocol.getD "tcp", by simp [hm]⟩
  · intro f p h hm
    obtain ⟨hp, hcv⟩ := Script.script_handleSubmit_some h
    subst hp
    have hnone := hcv hm
    exact ⟨jsTrim f.target, f.protocol.getD "tcp", jsTrim f.customPorts,
      by simp [hm], Script.script_validatePorts_none_ne_empty hnone,
      (Script.script_validatePorts_none_iff _).mp hnone⟩
  · intro f p h hm
    obtain ⟨⟨pv, -, hp⟩, -⟩ := Script1.script1_handleSubmit_some h
    subst hp
    exact ⟨f.target, pv, by simp [hm]⟩
  · intro f p h hm
    obtain ⟨⟨pv, -, hp⟩, hcv⟩ := Script1.script1_handleSubmit_some h
    subst hp
    have hnone := hcv hm
    exact ⟨f.target, pv, by simp [hm], Script1.script1_validatePorts_none_ne_empty hnone,
      (Script1.script1_validatePorts_none_iff _).mp hnone⟩

/-- C3 counterexample: `scriptgemin.js` receives a 200 response with the
decodable JSON body `{"error": "host unreachable"}` and neither stores it
nor navigates — it alerts instead — so success-status persistence is not
unconditional across the scripts. -/
theorem C3_cex_gemin_error_body :
    (Gemin.submitScan (.response 200 (some (.obj [("error", .str "host unreachable")])))
        ⟨false, "Start Scan"⟩).stored = none ∧
    (Gemin.submitScan (.response 200 (some (.obj [("error", .str "host unreachable")])))
        ⟨false, "Start Scan"⟩).navigate = none ∧
    (Gemin.submitScan (.response 200 (some (.obj [("error", .str "host unreachable")])))
        ⟨false, "Start Scan"⟩).alertMsg = some "Scan Error: host unreachable" :=
  ⟨rfl, rfl, rfl⟩

/-- C3 (amended): on a success status with a decodable body, `script.js`
stores the body verbatim under the session-storage key `scanResults` and
navigates to the results view, unconditionally for every such body;
`script1.js` does the same but into local storage; `scriptgemin.js` does so
only for a body that is not `null` and has no truthy `error` field. -/
theorem C3_success_stores_and_navigates :
    (∀ st j b, respOk st = true →
       (Script.submitScan (.response st (some j)) b).stored =
         some (.session, "scanResults", j) ∧
       (Script.submitScan (.response st (some j)) b).navigate = some "results.html") ∧
    (∀ st j b, respOk st = true →
       (Script1.submitScan (.response st (some j)) b).stored =
         some (.localStore, "scanResults", j) ∧
       (Script1.submitScan (.response st (some j)) b).navigate = some "results.html") ∧
    (∀ st j b, respOk st = true → ¬ j = Json.null →
       (∀ e, j.get "error" = some e → e.truthy = false) →
       (Gemin.submitScan (.response st (some j)) b).stored =
         some (.session, "scanResults", j) ∧
       (Gemin.submitScan (.response st (some j)) b).navigate = some "results.html") := by
  refine ⟨?_, ?_, ?_⟩
  · intro st j b hok
    constructor <;> simp [Script.submitScan, hok]
  · intro st j b hok
    constructor <;> simp [Script1.submitScan, hok]
  · intro st j b hok hnull herr
    cases j with
    | null => exact absurd rfl hnull
    | bool x => constructor <;> simp [Gemin.submitScan, hok, Json.get]
    | num x => constructor <;> simp [Gemin.submitScan, hok, Json.get]
    | str x => constructor <;> simp [Gemin.submitScan, hok, Json.get]
    | arr x => constructor <;> simp [Gemin.submitScan, hok, Json.get]
    | obj fs =>
      cases hx : lookupField fs "error" with
      | none => constructor <;> simp [Gemin.submitScan, hok, Json.get, hx]
      | some e =>
        have ht : e.truthy = false := herr e (by simp [Json.get, hx])
        constructor <;> simp [Gemin.submitScan, hok, Json.get, hx, ht]

/-- C4 counterexample: `script1.js` restores a fixed ready label, not the
label the control had before submission — from an initial label
`Launch Scan` every outcome returns the control labelled `Start Scan`. -/
theorem C4_cex_script1_label :
    (Script1.submitScan .networkError ⟨false, "Launch Scan"⟩).button =
      ⟨false, "Start Scan"⟩ ∧
    ("Start Scan" : String) ≠ "Launch Scan" :=
  ⟨rfl, by decide⟩

/-- C4 (amended): in every variant the submit control is disabled with a
busy label while in flight and re-enabled on every outcome — success,
backend error, transport failure — before `submitScan` returns;
`scriptgemin.js` restores the saved original label exactly, `script.js`
restores it whenever it is non-empty (falling back to `Start Scan`), and
`script1.js` always resets the fixed ready label `Start Scan`.  No outcome
leaves the control disabled. -/
theorem C4_button_always_restored :
    (Script.busyButton.disabled = true ∧ Script1.busyButton.disabled = true ∧
     Gemin.busyButton.disabled = true) ∧
    (∀ o b, (Script.submitScan o b).button.disabled = false ∧
       (¬ b.label = "" → (Script.submitScan o b).button.label = b.label)) ∧
    (∀ o b, (Script1.submitScan o b).button = ⟨false, "Start Scan"⟩) ∧
    (∀ o b, (Gemin.submitScan o b).button = ⟨false, b.label⟩) := by
  refine ⟨⟨rfl, rfl, rfl⟩, ?_, ?_, ?_⟩
  · intro o b
    rw [Script.script_submitScan_button]
    constructor
    · rfl
    · intro hl
      simp [Script.restoreButton, hl]
  · intro o b
    rw [Script1.script1_submitScan_button]
    rfl
  · intro o b
    rw [Gemin.gemin_submitScan_button]
    rfl

/-- C6 counterexample: a 200 response whose body fails to decode as JSON
makes `script.js` alert the transport-failure message — not a message
synthesized from the status code or taken from an error field — though it
does store nothing and does not navigate. -/
theorem C6_cex_undecodable_body :
    (Script.submitScan (.response 200 none) ⟨false, "Start Scan"⟩).alertMsg =
      some Script.networkAlert ∧
    Script.networkAlert ≠ "Scan Error: " ++ Script.statusMsg 200 ∧
    (Script.submitScan (.response 200 none) ⟨false, "Start Scan"⟩).stored = none ∧
    (Script.submitScan (.response 200 none) ⟨false, "Start Scan"⟩).navigate = none :=
  ⟨rfl, by decide, rfl, rfl⟩

/-- C6 (amended): on a non-success status with a decodable non-null body,
`script.js` and `script1.js` store nothing, do not navigate, and alert the
body's `error` field when truthy — `script.js` falling back to a message
synthesized from the status code, `script1.js` to a fixed unknown-error
message.  A body that fails to decode (any status) is reported with the
transport-failure message instead, still storing nothing and not
navigating; `scriptgemin.js` reports every non-success status with the
transport-failure message.  All these outcomes are recoverable:
storage and navigation are untouched. -/
theorem C6_error_responses_reported :
    (∀ st j b, respOk st = false → ¬ j = Json.null →
       (Script.submitScan (.response st (some j)) b).stored = none ∧
       (Script.submitScan (.response st (some j)) b).navigate = none ∧
       (Script.submitScan (.response st (some j)) b).alertMsg =
         some ("Scan Error: " ++ Script.backendMsg j st)) ∧
    (∀ st j b, respOk st = false → ¬ j = Json.null →
       (Script1.submitScan (.response st (some j)) b).stored = none ∧
       (Script1.submitScan (.response st (some j)) b).navigate = none ∧
       (Script1.submitScan (.response st (some j)) b).alertMsg =
         some ("Scan Error: " ++ Script1.backendMsg j)) ∧
    (∀ st b, (Script.submitScan (.response st none) b).stored = none ∧
       (Script.submitScan (.response st none) b).navigate = none ∧
       (Script.submitScan (.response st none) b).alertMsg = some Script.networkAlert) ∧
    (∀ st b, (Script1.submitScan (.response st none) b).stored = none ∧
       (Script1.submitScan (.response st none) b).navigate = none ∧
       (Script1.submitScan (.response st none) b).alertMsg = some Script1.networkAlert) ∧
    (∀ st body b, respOk st = false →
       (Gemin.submitScan (.response st body) b).stored = none ∧
       (Gemin.submitScan (.response st body) b).navigate = none ∧
       (Gemin.submitScan (.response st body) b).alertMsg = some Gemin.networkAlert) := by
  refine ⟨?_, ?_, ?_, ?_, ?_⟩
  · intro st j b hok hnull
    cases j with
    | null => exact absurd rfl hnull
    | bool x => refine ⟨?_, ?_, ?_⟩ <;> simp [Script.submitScan, hok]
    | num x => refine ⟨?_, ?_, ?_⟩ <;> simp [Script.submitScan, hok]
    | str x => refine ⟨?_, ?_, ?_⟩ <;> simp [Script.submitScan, hok]
    | arr x => refine ⟨?_, ?_, ?_⟩ <;> simp [Script.submitScan, hok]
    | obj fs => refine ⟨?_, ?_, ?_⟩ <;> simp [Script.submitScan, hok]
  · intro st j b hok hnull
    cases j with
    | null => exact absurd rfl hnull
    | bool x => refine ⟨?_, ?_, ?_⟩ <;> simp [Script1.submitScan, hok]
    | num x => refine ⟨?_, ?_, ?_⟩ <;> simp [Script1.submitScan, hok]
    | str x => refine ⟨?_, ?_, ?_⟩ <;> simp [Script1.submitScan, hok]
    | arr x => refine ⟨?_, ?_, ?_⟩ <;> simp [Script1.submitScan, hok]
    | obj fs => refine ⟨?_, ?_, ?_⟩ <;> simp [Script1.submitScan, hok]
  · intro st b
    exact ⟨rfl, rfl, rfl⟩
  · intro st b
    exact ⟨rfl, rfl, rfl⟩
  · intro st body b hok
    refine ⟨?_, ?_, ?_⟩ <;> simp [Gemin.submitScan, hok]

/-- C6 witness: a 500 response with body `{"error": "host unreachable"}`
is reported as a backend error by `script.js`, nothing stored, no
navigation. -/
theorem C6_error_responses_reported_witness :
    (Script.submitScan (.response 500 (some (.obj [("error", .str "host unreachable")])))
        ⟨false, "Start Scan"⟩).stored = none ∧
    (Script.submitScan (.response 500 (some (.obj [("error", .str "host unreachable")])))
        ⟨false, "Start Scan"⟩).navigate = none ∧
    (Script.submitScan (.response 500 (some (.obj [("error", .str "host unreachable")])))
        ⟨false, "Start Scan"⟩).alertMsg =
      some ("Scan Error: " ++ Script.backendMsg
        (.obj [("error", .str "host unreachable")]) 500) :=
  (C6_error_responses_reported.1) 500 (.obj [("error", .str "host unreachable")])
    ⟨false, "Start Scan"⟩ (by decide) (by simp)

/-- C9 counterexample: `scriptgemin.js` renders a non-numeric scan duration
by throwing (`toFixed` on a string) — there is no raw or `N/A` fallback —
and maps the `top_100` token to `Top 100 Ports`, not `Top 100 ports`. -/
theorem C9_cex_gemin_renderer :
    Gemin.durationText (.obj [("scan_duration", .str "fast")]) = none ∧
    Gemin.portsText (.obj [("ports_list", .str "top_100")]) = some "Top 100 Ports" ∧
    ("Top 100 Ports" : String) ≠ "Top 100 ports" :=
  ⟨rfl, by decide, by decide⟩

/-- C9 (amended): `script.js` renders a numeric scan duration with two
decimals (suffix `s`), falls back to the raw value when the duration is a
truthy non-number and to `N/A` when it is falsy or absent, uppercases the
protocol label, and maps `top...` tokens to `Top <digits> ports`;
`scriptgemin.js` formats only numeric durations — any other duration
throws instead of falling back — uppercases string protocols, and maps
`top_N` to `Top N Ports` (capital P). -/
theorem C9_renderer_summary_fields :
    (∀ d q, d.get "scan_duration" = some (.num q) →
       Script.durationText d = toFixed2 q ++ "s") ∧
    (∀ d v, d.get "scan_duration" = some v → (∀ q, ¬ v = Json.num q) →
       Script.durationText d = if v.truthy then jsDisplay v else "N/A") ∧
    (∀ d, d.get "scan_duration" = none → Script.durationText d = "N/A") ∧
    (∀ d s, d.get "protocol" = some (.str s) → ¬ s = "" →
       Script.protocolText d = some (toUpperString s)) ∧
    (∀ d q, d.get "scan_duration" = some (.num q) →
       Gemin.durationText d = some (toFixed2 q ++ "s")) ∧
    (∀ d s, d.get "protocol" = some (.str s) →
       Gemin.protocolText d = some (toUpperString s)) ∧
    Script.portsText (.obj [("ports_list", .str "top100")]) = "Top 100 ports" ∧
    Script.portsText (.obj [("ports_list", .str "top1000")]) = "Top 1000 ports" ∧
    Gemin.portsText (.obj [("ports_list", .str "top_100")]) = some "Top 100 Ports" ∧
    Gemin.durationText (.obj [("scan_duration", .str "fast")]) = none := by
  refine ⟨?_, ?_, ?_, ?_, ?_, ?_, rfl, rfl, rfl, rfl⟩
  · intro d q h
    simp [Script.durationText, h]
  · intro d v h hnum
    cases v with
    | num q => exact absurd rfl (hnum q)
    | null => simp [Script.durationText, h, Json.truthy]
    | bool x => simp [Script.durationText, h]
    | str x => simp [Script.durationText, h]
    | arr x => simp [Script.durationText, h]
    | obj x => simp [Script.durationText, h]
  · intro d h
    simp [Script.durationText, h]
  · intro d s h hs
    simp [Script.protocolText, jsField, h, hs]
  · intro d q h
    simp [Gemin.durationText, h]
  · intro d s h
    simp [Gemin.protocolText, h]

/-- C9 witness: a stored result with duration 1.23, protocol `tcp` is
rendered as `1.23s` and `TCP` by `script.js`. -/
theorem C9_renderer_summary_fields_witness :
    Script.durationText (.obj [("scan_duration", .num ⟨123, 2⟩)]) = toFixed2 ⟨123, 2⟩ ++ "s" ∧
    Script.protocolText (.obj [("protocol", .str "tcp")]) = some (toUpperString "tcp") :=
  ⟨(C9_renderer_summary_fields.1) (.obj [("scan_duration", .num ⟨123, 2⟩)]) ⟨123, 2⟩ rfl,
   (C9_renderer_summary_fields.2.2.2.1) (.obj [("protocol", .str "tcp")]) "tcp" rfl (by decide)⟩

end PortScanner
